import Mathlib

/-!
Verification development for the agent background-task service in
`unified-service-node/server.js`: the in-memory session store, the git
task runner (`executeGitTask`), the regex-based patch applier
(`applyClaudeSuggestions`), the HTTP request handlers for submit /
status / stop, and the WebSocket subscribe snapshot.

Strings model JavaScript strings (lengths are counted in characters
rather than UTF-16 units; all literals involved are ASCII, where the two
coincide).  External effects (shell commands, the filesystem, the model
API) are supplied by an explicit environment record, and the runner is a
pure function from that environment to the sequence of session mutations
and external commands it performs.
-/

namespace Orca

/-- JavaScript `\s` (also the character class removed by `String.prototype.trim`):
whitespace and line terminators. -/
def isJsSpace (c : Char) : Bool :=
  c = ' ' || c = '\t' || c = '\n' || c = '\x0b' || c = '\x0c' || c = '\r' ||
  c = '\u00A0' || c = '\u1680' || ('\u2000' ≤ c && c ≤ '\u200A') ||
  c = '\u2028' || c = '\u2029' || c = '\u202F' || c = '\u205F' ||
  c = '\u3000' || c = '\uFEFF'
/-- JavaScript `.` without the `s` flag: any character except line terminators. -/
def isJsDot (c : Char) : Bool :=
  !(c = '\n' || c = '\r' || c = '\u2028' || c = '\u2029')

/-- JavaScript `\w`: `[A-Za-z0-9_]`. -/
def isJsWord (c : Char) : Bool :=
  ('a' ≤ c && c ≤ 'z') || ('A' ≤ c && c ≤ 'Z') || ('0' ≤ c && c ≤ '9') || c = '_'

/-- Match a literal character sequence at the head of the input; on success
return the remainder. -/
def stripLit : List Char → List Char → Option (List Char)
  | [], s => some s
  | _ :: _, [] => none
  | l :: ls, c :: cs => if c = l then stripLit ls cs else none

/-- Substring test, as JavaScript `String.prototype.includes`. -/
def containsSub (pat : List Char) : List Char → Bool
  | [] => (stripLit pat []).isSome
  | c :: cs => (stripLit pat (c :: cs)).isSome || containsSub pat cs

/-- JavaScript `String.prototype.replace` with a string pattern: replaces only
the first occurrence (an empty pattern matches at the start). -/
def replFirst (pat rep : List Char) : List Char → List Char
  | [] => if pat = [] then rep else []
  | c :: cs =>
    match stripLit pat (c :: cs) with
    | some rest => rep ++ rest
    | none => c :: replFirst pat rep cs

/-- JavaScript `String.prototype.trim` on a character list. -/
def jsTrim (l : List Char) : List Char :=
  ((l.dropWhile isJsSpace).reverse.dropWhile isJsSpace).reverse

/-- JavaScript `String.prototype.trim`. -/
def jsTrimStr (s : String) : String := String.mk (jsTrim s.data)

/-- JavaScript string truthiness: an optional string field is truthy exactly
when it is present and non-empty. -/
def jsTruthy : Option String → Bool
  | some s => s ≠ ""
  | none => false

/-- The `git_status` milestone record of a session (server.js:717-723). -/
structure GitStatus where
  cloning : Bool := false
  cloned : Bool := false
  branch_created : Bool := false
  committed : Bool := false
  pushed : Bool := false
deriving DecidableEq, Repr

/-- One entry of `session.files`, as produced by `getChangedFiles`
(server.js:142): a path, a change type (`created`/`modified`/`deleted`)
and optionally the file content. -/
structure FileChange where
  path : String
  type : String
  content : Option String := none
deriving DecidableEq, Repr

/-- A session record in the `agentSessions` map.  Fields that only some
creation sites set (`git_status`, `files`, ... are absent on sessions made
by the legacy `/api/agent/start` endpoint) are `Option`-valued, `none`
standing for the JavaScript `undefined`/`null`. -/
structure Session where
  task : String
  model : String
  environment : String
  status : String
  created_at : String
  branch_name : Option String := none
  git_repo_url : Option String := none
  temp_dir : Option String := none
  progress : List String := []
  git_status : Option GitStatus := none
  files : Option (List FileChange) := none
  error : Option String := none
  messages : Option (List String) := none
deriving DecidableEq, Repr

/-- The alphabet of session mutations the program performs.  Each constructor
corresponds to the assignment sites in server.js that write to a session
stored in `agentSessions`: `progress.push` (lines 512, 519, 524, 533),
`temp_dir` (564), the five `git_status` flags, each only ever assigned
`true` after creation (568, 587, 601, 632, 643), `files` (636), `error`
(660), and `status` (541 via `updateStatus`, 854 in the stop endpoint). -/
inductive Mutation where
  | pushProgress (msg : String)
  | setTempDir (dir : String)
  | setCloning
  | setCloned
  | setBranchCreated
  | setCommitted
  | setPushed
  | setFiles (files : List FileChange)
  | setError (msg : String)
  | setStatus (status : String)
deriving DecidableEq, Repr

/-- Apply one mutation to a session. -/
def applyMut (s : Session) (m : Mutation) : Session :=
  match m with
  | .pushProgress msg => { s with progress := s.progress ++ [msg] }
  | .setTempDir d => { s with temp_dir := some d }
  | .setCloning => { s with git_status := some { s.git_status.getD {} with cloning := true } }
  | .setCloned => { s with git_status := some { s.git_status.getD {} with cloned := true } }
  | .setBranchCreated =>
    { s with git_status := some { s.git_status.getD {} with branch_created := true } }
  | .setCommitted => { s with git_status := some { s.git_status.getD {} with committed := true } }
  | .setPushed => { s with git_status := some { s.git_status.getD {} with pushed := true } }
  | .setFiles files => { s with files := some files }
  | .setError msg => { s with error := some msg }
  | .setStatus st => { s with status := st }

/-- Apply a sequence of mutations in order. -/
def applySession (s : Session) (ms : List Mutation) : Session :=
  ms.foldl applyMut s

/-- The characters of a fenced-code-block delimiter. -/
def fenceChars : List Char := "```".data

/-- The characters of the `FILE:` marker. -/
def fileChars : List Char := "FILE:".data

/-- Find the earliest occurrence of a fence delimiter; return the characters
before it and the characters after it.  This is the semantics of the lazy
group `([\s\S]*?)` followed by a literal fence in `applyClaudeSuggestions`
(server.js:496): the shortest body such that a fence follows. -/
def findFence : List Char → Option (List Char × List Char)
  | [] => none
  | c :: cs =>
    match stripLit fenceChars (c :: cs) with
    | some rest => some ([], rest)
    | none =>
      match findFence cs with
      | some (b, a) => some (c :: b, a)
      | none => none

/-- Match the tail of the pattern after the newline that ends the path:
a fence, an optional language word (`(?:\w+)?` — greedy, and since word
characters are never newlines, equivalent to skipping the maximal word run),
a newline, then the lazy body up to the next fence.  Returns the body group
and the remainder after the closing fence. -/
def matchTail (u : List Char) : Option (List Char × List Char) :=
  match stripLit fenceChars u with
  | none => none
  | some u1 =>
    match u1.drop (u1.takeWhile isJsWord).length with
    | '\n' :: v => findFence v
    | _ => none

/-- Match `(.+?)\n` followed by the tail, starting at `t`.  Because `.`
excludes line terminators, the lazy group `(.+?)` admits exactly one
candidate: the maximal run of non-terminator characters, which must be
non-empty and must be followed by a literal newline. -/
def matchBody (t : List Char) : Option (List Char × List Char × List Char) :=
  let d := t.takeWhile isJsDot
  if d.isEmpty then none
  else
    match t.drop d.length with
    | '\n' :: u =>
      match matchTail u with
      | some (g2, rest) => some (d, g2, rest)
      | none => none
    | _ => none

/-- Backtracking over the greedy `\s*` between `FILE:` and the path group:
try consuming `k` whitespace characters, largest first. -/
def tryWs : Nat → List Char → Option (List Char × List Char × List Char)
  | 0, t0 => matchBody t0
  | k + 1, t0 =>
    match matchBody (t0.drop (k + 1)) with
    | some r => some r
    | none => tryWs k t0

/-- Attempt the pattern `FILE:\s*(.+?)\n` + fence tail at the head of `s`,
returning the two capture groups and the remainder after the match. -/
def matchAt (s : List Char) : Option (List Char × List Char × List Char) :=
  match stripLit fileChars s with
  | none => none
  | some t0 => tryWs (t0.takeWhile isJsSpace).length t0

/-- The repeated-`exec` scan of the global regex
`/FILE:\s*(.+?)\n` + fence + `(?:\w+)?\n([\s\S]*?)` + fence + `/g`
(server.js:496-500): find the leftmost match, record its groups, and resume
scanning right after the match.  `fuel` only bounds the recursion; every
step consumes at least one character (a successful match consumes at least
the five `FILE:` characters), so `length + 1` fuel is never exhausted. -/
def scanAux : Nat → List Char → List (List Char × List Char)
  | 0, _ => []
  | fuel + 1, s =>
    match matchAt s with
    | some (g1, g2, rest) => (g1, g2) :: scanAux fuel rest
    | none =>
      match s with
      | [] => []
      | _ :: cs => scanAux fuel cs

/-- All matches of the file-block pattern in a model response, in match
order, as raw (untrimmed) capture-group pairs (path, content). -/
def fileBlockMatches (text : String) : List (String × String) :=
  (scanAux (text.data.length + 1) text.data).map (fun p => (String.mk p.1, String.mk p.2))

/-- A model of the file tree of the scratch repository: path to file content. -/
abbrev Fs : Type := String → Option String

/-- Write one file (`fs.writeFile`, server.js:510): total over arbitrary
paths — the code performs no path validation and `fs.mkdir recursive`
creates any needed parents — and silently overwrites existing content. -/
def fsWrite (fs : Fs) (p c : String) : Fs :=
  fun q => if q = p then some c else fs q

/-- Write a list of (path, content) pairs in order. -/
def writeAll (fs : Fs) (ws : List (String × String)) : Fs :=
  ws.foldl (fun f w => fsWrite f w.1 w.2) fs

/-- The trimmed (path, content) write list of a model response
(server.js:501-502: `match[1].trim()`, `match[2].trim()`). -/
def fileWrites (text : String) : List (String × String) :=
  (fileBlockMatches text).map (fun m => (jsTrimStr m.1, jsTrimStr m.2))

/-- Filesystem effect of `applyClaudeSuggestions` (server.js:494-527).
`failAt = some (n, e)` models an exception with message `e` thrown by
`fs.mkdir`/`fs.writeFile` while processing the `n`-th match (caught at
line 522): the first `n` writes have already happened.  `failAt = none` is
the normal run. -/
def applyFs (fs : Fs) (text : String) (failAt : Option (Nat × String)) : Fs :=
  match failAt with
  | none => writeAll fs (fileWrites text)
  | some (n, _) => writeAll fs ((fileWrites text).take n)

/-- Progress lines appended by `applyClaudeSuggestions`: one
`Modified: <path>` line per applied match, in match order; if no match was
applied and no exception occurred, the single
`No file changes detected in response` line; on an exception, the lines of
the matches already applied followed by an `Error applying changes` line. -/
def applyMessages (text : String) (failAt : Option (Nat × String)) : List String :=
  match failAt with
  | none =>
    if (fileBlockMatches text).isEmpty then ["No file changes detected in response"]
    else (fileWrites text).map (fun w => "Modified: " ++ w.1)
  | some (n, e) =>
    ((fileWrites text).take n).map (fun w => "Modified: " ++ w.1) ++
      ["Error applying changes: " ++ e]

/-- `applyClaudeSuggestions` (server.js:494-527): apply every match of the
file-block pattern to the scratch tree and report progress lines. -/
def applyClaudeSuggestions (fs : Fs) (text : String) (failAt : Option (Nat × String)) :
    Fs × List String :=
  (applyFs fs text failAt, applyMessages text failAt)

example : fileBlockMatches "FILE: foo.txt\n```\nhello\n```" = [("foo.txt", "hello\n")] := by
  decide

example : fileBlockMatches "FILE: a.py\n```python\nx = 1\n```" = [("a.py", "x = 1\n")] := by
  decide

example : fileBlockMatches "no blocks here" = [] := by decide

example :
    fileBlockMatches "FILE: a\n```\none\n```\nFILE: a\n```\ntwo\n```" =
      [("a", "one\n"), ("a", "two\n")] := by decide

example : applyMessages "nothing" none = ["No file changes detected in response"] := by decide

/-- Result of `runCommand` (server.js:87-105): success flag and combined
stdout+stderr output.  `runCommand` never rejects; errors are reported
through `success = false`. -/
structure CmdResult where
  success : Bool
  output : String
deriving DecidableEq, Repr

/-- The external git commands the runner issues, with their data. -/
inductive GitCmd where
  | clone (url : String)
  | configEmail
  | configName
  | checkoutBranch (branch : String)
  | status
  | addAll
  | commit (msg : String)
  | push (branch : String)
deriving DecidableEq, Repr

/-- The exact shell text of each command (server.js:582, 592, 593, 597,
620, 625, 629, 640). -/
def GitCmd.render : GitCmd → String
  | .clone url => "git clone --depth=50 \"" ++ url ++ "\" repo"
  | .configEmail => "git config user.email \"claude-agent@orca-lab.local\""
  | .configName => "git config user.name \"Claude Agent\""
  | .checkoutBranch b => "git checkout -b \"" ++ b ++ "\""
  | .status => "git status --porcelain"
  | .addAll => "git add -A"
  | .commit msg => "git commit -m \"" ++ msg ++ "\""
  | .push b => "git push -u origin \"" ++ b ++ "\""

/-- `String.prototype.replace` with a string pattern (first occurrence only). -/
def replFirstStr (s pat rep : String) : String :=
  String.mk (replFirst pat.data rep.data s.data)

/-- Credential injection into the clone URL (server.js:571-579): only the
two recognized github.com shapes are rewritten; anything else falls
through unchanged. -/
def rewriteCloneUrl (gitRepoUrl gitToken : String) : String :=
  if gitToken ≠ "" && containsSub "github.com".data gitRepoUrl.data then
    if gitRepoUrl.startsWith "git@github.com:" then
      let repoPath := replFirstStr (replFirstStr gitRepoUrl "git@github.com:" "") ".git" ""
      "https://" ++ gitToken ++ "@github.com/" ++ repoPath ++ ".git"
    else if gitRepoUrl.startsWith "https://github.com/" then
      replFirstStr gitRepoUrl "https://github.com/" ("https://" ++ gitToken ++ "@github.com/")
    else gitRepoUrl
  else gitRepoUrl

/-- Commit message construction (server.js:628), before quote escaping. -/
def mkCommitMsg (task : String) : String :=
  if task.length > 50 then "Claude Agent: " ++ task.take 50 ++ "..."
  else "Claude Agent: " ++ task

/-- The global-regex escaping of the commit message (server.js:629): every
double quote becomes backslash-quote. -/
def escQuotes (s : String) : String := s.replace "\"" "\\\""

/-- Outcomes of all external effects one run of `executeGitTask` can
perform, in pipeline order.  The two `config` results and the `add` result
exist but are ignored by the code. -/
structure RunnerEnv where
  mkdtempResult : Except String String
  cloneResult : CmdResult
  configEmailResult : CmdResult := ⟨true, ""⟩
  configNameResult : CmdResult := ⟨true, ""⟩
  branchResult : CmdResult := ⟨true, ""⟩
  apiResponse : Option String := none
  applyFailAt : Option (Nat × String) := none
  statusResult : CmdResult := ⟨true, ""⟩
  addResult : CmdResult := ⟨true, ""⟩
  commitResult : CmdResult := ⟨true, ""⟩
  changedFiles : List FileChange := []
  pushResult : CmdResult := ⟨true, ""⟩
deriving Repr

/-- One observable step of the runner: a session mutation or an external
git command. -/
inductive Event where
  | mut (m : Mutation)
  | cmd (c : GitCmd)
deriving DecidableEq, Repr

/-- The catch block of `executeGitTask` (server.js:659-663): record the
message, log it to progress, and set the terminal `error` status. -/
def catchEvents (e : String) : List Event :=
  [.mut (.setError e), .mut (.pushProgress ("Error: " ++ e)), .mut (.setStatus "error")]

/-- The ordered mutations and commands of one `executeGitTask` run
(server.js:554-676), given the outcomes of its external effects. -/
def runnerEvents (env : RunnerEnv) (environment model task gitRepoUrl gitToken branchName :
    String) : List Event :=
  Event.mut (.pushProgress "Creating temporary workspace...") ::
  match env.mkdtempResult with
  | .error e => catchEvents e
  | .ok tempDir =>
    [Event.mut (.setTempDir tempDir),
     .mut (.pushProgress "Cloning repository..."),
     .mut .setCloning,
     .cmd (.clone (rewriteCloneUrl gitRepoUrl gitToken))] ++
    if !env.cloneResult.success then
      catchEvents ("Failed to clone repository: " ++ env.cloneResult.output)
    else
      [Event.mut .setCloned,
       .mut (.pushProgress "Repository cloned successfully"),
       .mut (.pushProgress "Configuring git..."),
       .cmd .configEmail,
       .cmd .configName,
       .mut (.pushProgress ("Creating branch: " ++ branchName)),
       .cmd (.checkoutBranch branchName)] ++
      if !env.branchResult.success then
        catchEvents ("Failed to create branch: " ++ env.branchResult.output)
      else
        [Event.mut .setBranchCreated,
         .mut (.pushProgress "Executing Claude agent via Grazie API..."),
         .mut (.pushProgress ("Task: " ++ task)),
         .mut (.pushProgress ("Environment: " ++ environment)),
         .mut (.pushProgress ("Model: " ++ model))] ++
        (if jsTruthy env.apiResponse then
          Event.mut (.pushProgress "Received response from Claude API") ::
            (applyMessages (env.apiResponse.getD "") env.applyFailAt).map
              (fun m => Event.mut (.pushProgress m))
        else [Event.mut (.pushProgress "Warning: Could not get response from API")]) ++
        [Event.mut (.pushProgress "Checking for changes..."),
         .cmd .status] ++
        (if jsTrimStr env.statusResult.output ≠ "" then
          [Event.mut (.pushProgress "Changes detected, staging files..."),
           .cmd .addAll,
           .cmd (.commit (escQuotes (mkCommitMsg task)))] ++
          if env.commitResult.success then
            [Event.mut .setCommitted,
             .mut (.pushProgress "Changes committed"),
             .mut (.setFiles env.changedFiles),
             .mut (.pushProgress ("Pushing branch " ++ branchName ++ " to remote...")),
             .cmd (.push branchName)] ++
            if env.pushResult.success then
              [Event.mut .setPushed,
               .mut (.pushProgress ("Branch " ++ branchName ++ " pushed successfully"))]
            else
              [Event.mut (.pushProgress ("Warning: Push failed - " ++ env.pushResult.output))]
          else
            [Event.mut (.pushProgress "No changes to commit")]
        else
          [Event.mut (.pushProgress "No changes were made by the agent")]) ++
        [Event.mut (.pushProgress "Task completed successfully!"),
         .mut (.setStatus "completed")]

/-- Project an event to its session mutation, if any. -/
def eventMut : Event → Option Mutation
  | .mut m => some m
  | .cmd _ => none

/-- Project an event to its external command, if any. -/
def eventCmd : Event → Option GitCmd
  | .cmd c => some c
  | .mut _ => none

/-- The session mutations of one runner execution, in order. -/
def runnerMutations (env : RunnerEnv)
    (environment model task gitRepoUrl gitToken branchName : String) : List Mutation :=
  (runnerEvents env environment model task gitRepoUrl gitToken branchName).filterMap eventMut

/-- The external commands of one runner execution, in order. -/
def runnerCommands (env : RunnerEnv)
    (environment model task gitRepoUrl gitToken branchName : String) : List GitCmd :=
  (runnerEvents env environment model task gitRepoUrl gitToken branchName).filterMap eventCmd

/-- Final session state after one runner execution over a session. -/
def executeGitTask (s : Session) (env : RunnerEnv)
    (environment model task gitRepoUrl gitToken branchName : String) : Session :=
  applySession s (runnerMutations env environment model task gitRepoUrl gitToken branchName)

/-- The session record created by `POST /api/agent/git-task`
(server.js:708-726). -/
def initGitSession (task model environment now branchName gitRepoUrl : String) : Session :=
  { task := task, model := model, environment := environment, status := "running",
    created_at := now, branch_name := some branchName, git_repo_url := some gitRepoUrl,
    progress := [], git_status := some {}, files := some [], error := none }

/-- The `agentSessions` map, keyed by session id in insertion order. -/
abbrev Store : Type := List (String × Session)

/-- `Map.prototype.get`. -/
def storeGet : Store → String → Option Session
  | [], _ => none
  | (k, v) :: rest, sid => if k = sid then some v else storeGet rest sid

/-- `Map.prototype.set`: replace in place if the key exists, else append. -/
def storeSet : Store → String → Session → Store
  | [], sid, s => [(sid, s)]
  | (k, v) :: rest, sid, s =>
    if k = sid then (sid, s) :: rest else (k, v) :: storeSet rest sid s

/-- Request body of `POST /api/agent/git-task`, after the destructuring
defaults of server.js:683-691 (a missing field equals the empty string or
the listed default). -/
structure GitTaskBody where
  token : String := ""
  environment : String := "STAGING"
  model : String := "claude-sonnet-4-5-20250929"
  task : String := ""
  git_repo_url : String := ""
  git_token : String := ""
  branch_name : String := ""
deriving DecidableEq, Repr

/-- Success body returned by `POST /api/agent/git-task` (server.js:731-736). -/
structure GitTaskOk where
  session_id : String
  status : String
  branch_name : String
  timestamp : String
deriving DecidableEq, Repr

/-- Response of `POST /api/agent/git-task`. -/
inductive GitTaskRes where
  | ok (r : GitTaskOk)
  | err (code : Nat) (msg : String)
deriving DecidableEq, Repr

/-- The generated default branch name (server.js:704):
`claude-agent/` followed by the ISO timestamp with `:` and `.` replaced by
`-`, truncated to 19 characters. -/
def defaultBranchName (nowIso : String) : String :=
  "claude-agent/" ++
    (String.mk (nowIso.data.map fun c => if c = ':' || c = '.' then '-' else c)).take 19

/-- The synchronous part of `POST /api/agent/git-task` (server.js:681-741):
validation, session creation and the immediate response.  `newId` is the
generated uuid, `now` the current ISO timestamp.  The background
`executeGitTask` call is modelled separately (`executeGitTask`). -/
def gitTaskHandler (store : Store) (body : GitTaskBody) (newId now : String) :
    Store × GitTaskRes :=
  if body.token = "" then (store, .err 400 "Grazie token is required")
  else if body.task = "" then (store, .err 400 "Task description is required")
  else if body.git_repo_url = "" then (store, .err 400 "Git repository URL is required")
  else
    let finalBranchName :=
      if body.branch_name ≠ "" then body.branch_name else defaultBranchName now
    let session :=
      initGitSession body.task body.model body.environment now finalBranchName body.git_repo_url
    (storeSet store newId session, .ok ⟨newId, "running", finalBranchName, now⟩)

/-- Request body of the legacy `POST /api/agent/start` (server.js:748-753). -/
structure StartBody where
  token : String := ""
  environment : String := "PREPROD"
  model : String := "claude-sonnet-4-5-20250929"
  task : String := ""
deriving DecidableEq, Repr

/-- Success body returned by `POST /api/agent/start` (server.js:774-778). -/
structure StartOk where
  session_id : String
  status : String
  timestamp : String
deriving DecidableEq, Repr

/-- Response of `POST /api/agent/start`. -/
inductive StartRes where
  | ok (r : StartOk)
  | err (code : Nat) (msg : String)
deriving DecidableEq, Repr

/-- The legacy `POST /api/agent/start` endpoint (server.js:746-783). -/
def startHandler (store : Store) (body : StartBody) (newId now : String) :
    Store × StartRes :=
  if body.token = "" then (store, .err 400 "Token is required")
  else if body.task = "" then (store, .err 400 "Task is required")
  else
    let session : Session :=
      { task := body.task, model := body.model, environment := body.environment,
        status := "running", created_at := now, progress := [], messages := some [] }
    (storeSet store newId session, .ok ⟨newId, "running", now⟩)

/-- Success body returned by `POST /api/agent/stop/:session_id`
(server.js:856-860). -/
structure StopOk where
  session_id : String
  status : String
  timestamp : String
deriving DecidableEq, Repr

/-- Response of `POST /api/agent/stop/:session_id`. -/
inductive StopRes where
  | ok (r : StopOk)
  | err (code : Nat) (msg : String)
deriving DecidableEq, Repr

/-- `POST /api/agent/stop/:session_id` (server.js:846-861): 404 on an
unknown id; otherwise unconditionally overwrite `status` with `stopped` —
the one session write performed outside the runner. -/
def stopHandler (store : Store) (sid now : String) : Store × StopRes :=
  match storeGet store sid with
  | none => (store, .err 404 "Session not found")
  | some s =>
    (storeSet store sid (applyMut s (.setStatus "stopped")), .ok ⟨sid, "stopped", now⟩)

/-- Keep an optional string response field only when the session field is
truthy (present and non-empty), as the `if (session.x)` guards do. -/
def truthyField : Option String → Option String
  | some s => if s = "" then none else some s
  | none => none

/-- Response body of `GET /api/agent/status/:session_id`
(server.js:797-822); optional fields are included under the truthiness
guards of lines 806-820. -/
structure StatusData where
  session_id : String
  status : String
  task : String
  created_at : String
  timestamp : String
  git_status : Option GitStatus := none
  branch_name : Option String := none
  files : Option (List FileChange) := none
  error : Option String := none
  progress : Option (List String) := none
deriving DecidableEq, Repr

/-- `GET /api/agent/status/:session_id` (server.js:788-823): `none` models
the 404 response for an unknown session. -/
def statusHandler (store : Store) (sid now : String) : Option StatusData :=
  (storeGet store sid).map fun s =>
    { session_id := sid, status := s.status, task := s.task, created_at := s.created_at,
      timestamp := now,
      git_status := s.git_status,
      branch_name := truthyField s.branch_name,
      files := s.files,
      error := truthyField s.error,
      progress := if s.progress.isEmpty then none else some s.progress }

/-- The full-state message sent over the WebSocket (server.js:1625-1640 on
connect, and by `updateStatus` through `broadcastStatus`). -/
structure WsState where
  status : String
  progress : List String
  gitStatus : GitStatus
  files : List FileChange
  error : Option String
deriving DecidableEq, Repr

/-- The snapshot built from a session for the connect-time message, with
the defaulting of server.js:1628-1638 (`progress || []`,
`git_status || {...all false}`, `files || []`). -/
def wsSnapshot (s : Session) : WsState :=
  { status := s.status, progress := s.progress, gitStatus := s.git_status.getD {},
    files := s.files.getD [], error := s.error }

/-- The messages sent by the connection handler (server.js:1612-1641) when
a client subscribes to `sid`: exactly one full-state snapshot when the
session exists, nothing otherwise. -/
def wsConnectMessages (store : Store) (sid : String) : List WsState :=
  match storeGet store sid with
  | some s => [wsSnapshot s]
  | none => []

/-- The milestone flags of a session, defaulting to all-false when the
record is absent. -/
def gitFlags (s : Session) : GitStatus := s.git_status.getD {}

/-- Pointwise boolean implication on the four milestone flags named by the
spec: `gitLe a b` says every flag set in `a` is still set in `b`. -/
def gitLe (a b : GitStatus) : Bool :=
  (!a.cloned || b.cloned) && (!a.branch_created || b.branch_created) &&
    (!a.committed || b.committed) && (!a.pushed || b.pushed)

lemma applyMut_progress (s : Session) (m : Mutation) :
    ∃ t, (applyMut s m).progress = s.progress ++ t := by
  cases m <;> simp [applyMut]

lemma applySession_cons (s : Session) (m : Mutation) (rest : List Mutation) :
    applySession s (m :: rest) = applySession (applyMut s m) rest := by
  simp [applySession]

lemma applySession_append (s : Session) (l1 l2 : List Mutation) :
    applySession s (l1 ++ l2) = applySession (applySession s l1) l2 := by
  simp [applySession, List.foldl_append]

lemma applySession_progress (s : Session) (ms : List Mutation) :
    ∃ t, (applySession s ms).progress = s.progress ++ t := by
  induction ms generalizing s with
  | nil => exact ⟨[], by simp [applySession]⟩
  | cons m rest ih =>
    obtain ⟨t2, h2⟩ := ih (applyMut s m)
    obtain ⟨t1, h1⟩ := applyMut_progress s m
    refine ⟨t1 ++ t2, ?_⟩
    rw [applySession_cons, h2, h1, List.append_assoc]

lemma applyMut_flags (s : Session) (m : Mutation) :
    ((gitFlags s).cloned = true → (gitFlags (applyMut s m)).cloned = true) ∧
    ((gitFlags s).branch_created = true → (gitFlags (applyMut s m)).branch_created = true) ∧
    ((gitFlags s).committed = true → (gitFlags (applyMut s m)).committed = true) ∧
    ((gitFlags s).pushed = true → (gitFlags (applyMut s m)).pushed = true) := by
  cases m <;> simp [applyMut, gitFlags]

lemma applySession_flags (s : Session) (ms : List Mutation) :
    ((gitFlags s).cloned = true → (gitFlags (applySession s ms)).cloned = true) ∧
    ((gitFlags s).branch_created = true →
      (gitFlags (applySession s ms)).branch_created = true) ∧
    ((gitFlags s).committed = true → (gitFlags (applySession s ms)).committed = true) ∧
    ((gitFlags s).pushed = true → (gitFlags (applySession s ms)).pushed = true) := by
  induction ms generalizing s with
  | nil => simp [applySession]
  | cons m rest ih =>
    have h1 := applyMut_flags s m
    have h2 := ih (applyMut s m)
    rw [applySession_cons]
    exact ⟨fun h => h2.1 (h1.1 h), fun h => h2.2.1 (h1.2.1 h),
      fun h => h2.2.2.1 (h1.2.2.1 h), fun h => h2.2.2.2 (h1.2.2.2 h)⟩

/-- C6: for every session and every one of the `gitState` milestone
booleans (`cloned`, `branch_created`, `committed`, `pushed`), once the
boolean is true it remains true: any sequence of mutations the program can
perform (`Mutation` is the alphabet of all session-assignment sites in
server.js, runner and stop endpoint included) only leaves each flag
unchanged or flips it from false to true. -/
theorem gitState_flags_monotone (s : Session) (ms : List Mutation) :
    gitLe (gitFlags s) (gitFlags (applySession s ms)) = true := by
  have h := applySession_flags s ms
  simp only [gitLe, Bool.and_eq_true, Bool.or_eq_true, Bool.not_eq_true']
  refine ⟨⟨⟨?_, ?_⟩, ?_⟩, ?_⟩
  · cases hc : (gitFlags s).cloned
    · exact Or.inl rfl
    · exact Or.inr (h.1 hc)
  · cases hc : (gitFlags s).branch_created
    · exact Or.inl rfl
    · exact Or.inr (h.2.1 hc)
  · cases hc : (gitFlags s).committed
    · exact Or.inl rfl
    · exact Or.inr (h.2.2.1 hc)
  · cases hc : (gitFlags s).pushed
    · exact Or.inl rfl
    · exact Or.inr (h.2.2.2 hc)

/-- C7: for every session, `progress` is append-only: any sequence of
mutations the program can perform extends the existing `progress` list at
the end, so no entry is ever deleted, replaced or reordered and the length
is non-decreasing; this covers the normal and error paths of the runner and the
stop endpoint, all of whose session writes are `Mutation` values. -/
theorem progress_append_only (s : Session) (ms : List Mutation) :
    ∃ t, (applySession s ms).progress = s.progress ++ t :=
  applySession_progress s ms

/-- C9: a listener subscribing to an existing session receives exactly one
message, the full-state snapshot carrying status, the progress so far,
gitState, files and error, and the status in the snapshot equals the status a
concurrent poll of `GET /api/agent/status/:session_id` returns at that
instant, both being reads of the same stored session. -/
theorem ws_snapshot_matches_poll (store : Store) (sid now : String) (s : Session)
    (h : storeGet store sid = some s) :
    wsConnectMessages store sid = [wsSnapshot s] ∧
    (wsSnapshot s).status = s.status ∧
    (wsSnapshot s).progress = s.progress ∧
    (wsSnapshot s).gitStatus = s.git_status.getD {} ∧
    (wsSnapshot s).files = s.files.getD [] ∧
    (wsSnapshot s).error = s.error ∧
    (statusHandler store sid now).map StatusData.status = some (wsSnapshot s).status := by
  simp [wsConnectMessages, statusHandler, wsSnapshot, h]

/-- Witness for C9 at a concrete one-session store. -/
theorem ws_snapshot_matches_poll_witness :
    storeGet [("s1", initGitSession "t" "m" "e" "now" "b" "u")] "s1" =
      some (initGitSession "t" "m" "e" "now" "b" "u") ∧
    wsConnectMessages [("s1", initGitSession "t" "m" "e" "now" "b" "u")] "s1" =
      [wsSnapshot (initGitSession "t" "m" "e" "now" "b" "u")] ∧
    (statusHandler [("s1", initGitSession "t" "m" "e" "now" "b" "u")] "s1" "now2").map
        StatusData.status =
      some (wsSnapshot (initGitSession "t" "m" "e" "now" "b" "u")).status := by
  have h := ws_snapshot_matches_poll [("s1", initGitSession "t" "m" "e" "now" "b" "u")]
    "s1" "now2" (initGitSession "t" "m" "e" "now" "b" "u") (by decide)
  exact ⟨by decide, h.1, h.2.2.2.2.2.2⟩

/-- C10: a task submission whose `token` field is missing or empty is
rejected synchronously with an error response and no session is added to
the store, even when `task` and the repository URL are present; the same
holds for the legacy start endpoint. -/
theorem token_required (store : Store) (b : GitTaskBody) (sb : StartBody)
    (newId now : String) (hb : b.token = "") (hs : sb.token = "") :
    gitTaskHandler store b newId now = (store, .err 400 "Grazie token is required") ∧
    startHandler store sb newId now = (store, .err 400 "Token is required") := by
  simp [gitTaskHandler, startHandler, hb, hs]

/-- Witness for C10: a body with task and repository URL present but no
token is rejected and the store stays empty. -/
theorem token_required_witness :
    ({ task := "add a README", git_repo_url := "https://x/r.git" } : GitTaskBody).token = "" ∧
    ({ task := "add a README", git_repo_url := "https://x/r.git" } : GitTaskBody).task ≠ "" ∧
    ({ task := "add a README",
       git_repo_url := "https://x/r.git" } : GitTaskBody).git_repo_url ≠ "" ∧
    gitTaskHandler [] { task := "add a README", git_repo_url := "https://x/r.git" }
        "id-1" "ts" = ([], .err 400 "Grazie token is required") ∧
    startHandler [] { task := "add a README" } "id-1" "ts" =
      ([], .err 400 "Token is required") := by
  have h := token_required [] { task := "add a README", git_repo_url := "https://x/r.git" }
    { task := "add a README" } "id-1" "ts" rfl rfl
  exact ⟨rfl, by decide, by decide, h.1, h.2⟩

/-- A terminal session status. -/
def isTerminal (st : String) : Bool :=
  st = "completed" || st = "error" || st = "stopped"

/-- The status value written by a mutation, if it writes one. -/
def statusOf : Mutation → Option String
  | .setStatus st => some st
  | _ => none

/-- The sequence of status values a mutation list writes, in order. -/
def statusWrites (ms : List Mutation) : List String :=
  ms.filterMap statusOf

lemma filterMap_eventMut_pushes (l : List String) :
    (l.map fun m => Event.mut (Mutation.pushProgress m)).filterMap eventMut =
      l.map Mutation.pushProgress := by
  induction l with
  | nil => rfl
  | cons a t ih => simp [eventMut, ih]

lemma filterMap_comp_eventMut_pushes (l : List String) :
    List.filterMap (eventMut ∘ fun m => Event.mut (Mutation.pushProgress m)) l =
      l.map Mutation.pushProgress := by
  induction l with
  | nil => rfl
  | cons a t ih => simp [eventMut, ih]

lemma statusWrites_pushes (l : List String) :
    statusWrites (l.map Mutation.pushProgress) = [] := by
  induction l with
  | nil => rfl
  | cons a t ih => simp only [List.map_cons, statusWrites, List.filterMap_cons] at ih ⊢
                   simp [statusOf, ih]

/-- C1 counterexample: the Stop endpoint overwrites the status of a session
that already reached the terminal status `completed` with the different
terminal status `stopped` — a terminal→terminal transition, contradicting
the claim that none ever occurs. -/
theorem stop_overwrites_terminal_status :
    (let s : Session := { task := "t", model := "m", environment := "e",
                          status := "completed", created_at := "ts",
                          branch_name := some "b", git_repo_url := some "u",
                          git_status := some {}, files := some [] }
     isTerminal s.status = true ∧
     storeGet (stopHandler [("s1", s)] "s1" "ts2").1 "s1" =
       some { s with status := "stopped" } ∧
     (stopHandler [("s1", s)] "s1" "ts2").2 = .ok ⟨"s1", "stopped", "ts2"⟩ ∧
     isTerminal "stopped" = true ∧ ("stopped" : String) ≠ s.status) := by
  decide

/-- C1 (amended): the Task Runner itself writes `status` exactly once per
run, and the value written is terminal (`completed` or `error`); absent
Stop requests the status of a session therefore moves from `running` to a
terminal value exactly once.  (The Stop endpoint can still overwrite a
terminal status, per the counterexample.) -/
theorem runner_writes_status_once (env : RunnerEnv)
    (environment model task gitRepoUrl gitToken branchName : String) :
    statusWrites (runnerMutations env environment model task gitRepoUrl gitToken
        branchName) = ["completed"] ∨
    statusWrites (runnerMutations env environment model task gitRepoUrl gitToken
        branchName) = ["error"] := by
  cases henv : env.mkdtempResult with
  | error e =>
    right
    simp [runnerMutations, runnerEvents, henv, catchEvents, statusWrites, statusOf, eventMut]
  | ok dir =>
    by_cases hcl : env.cloneResult.success
    · by_cases hbr : env.branchResult.success
      · left
        by_cases hapi : jsTruthy env.apiResponse <;>
          by_cases hst : jsTrimStr env.statusResult.output = "" <;>
            by_cases hcm : env.commitResult.success <;>
              by_cases hps : env.pushResult.success <;>
                simp [runnerMutations, runnerEvents, henv, hcl, hbr, hapi, hst, hcm, hps,
                  catchEvents, statusWrites, statusOf, eventMut, List.filterMap_append,
                  filterMap_eventMut_pushes, statusWrites_pushes]
      · right
        simp [runnerMutations, runnerEvents, henv, hcl, hbr, catchEvents, statusWrites,
          statusOf, eventMut]
    · right
      simp [runnerMutations, runnerEvents, henv, hcl, catchEvents, statusWrites, statusOf,
        eventMut]

lemma storeSet_length (store : Store) (k : String) (v : Session)
    (h : storeGet store k = none) : (storeSet store k v).length = store.length + 1 := by
  induction store with
  | nil => rfl
  | cons kv rest ih =>
    obtain ⟨k0, v0⟩ := kv
    by_cases hk : k0 = k
    · simp [storeGet, hk] at h
    · simp only [storeGet, hk, if_false, if_neg hk] at h
      simp [storeSet, hk, ih h]

/-- C2 counterexample: a submission in which `task` and the repository URL
are both present but `token` is absent is rejected with an error response
and no session is created, contradicting the claim that every submission
with `task` and `repositoryUrl` present succeeds. -/
theorem submit_without_token_rejected :
    (let b : GitTaskBody := { task := "add a README",
                              git_repo_url := "https://example.test/repo.git" }
     b.task ≠ "" ∧ b.git_repo_url ≠ "" ∧
     gitTaskHandler [] b "id-2" "ts" = ([], .err 400 "Grazie token is required")) := by
  decide

/-- C2 (amended): a submission missing `task` or missing the repository URL
is rejected with an error response and the store is unchanged; a
submission with `task`, the repository URL and additionally `token` all
present is accepted: the response carries the new session id, status
`running` and the branch name, and (for a fresh id) the store grows by
exactly one session. -/
theorem submit_validation (store : Store) (b : GitTaskBody) (newId now : String) :
    ((b.task = "" ∨ b.git_repo_url = "") →
      ∃ code msg, gitTaskHandler store b newId now = (store, .err code msg)) ∧
    (b.token ≠ "" → b.task ≠ "" → b.git_repo_url ≠ "" →
      (gitTaskHandler store b newId now).2 =
        .ok ⟨newId, "running",
          if b.branch_name ≠ "" then b.branch_name else defaultBranchName now, now⟩ ∧
      (storeGet store newId = none →
        (gitTaskHandler store b newId now).1.length = store.length + 1)) := by
  constructor
  · intro h
    by_cases ht : b.token = ""
    · exact ⟨400, "Grazie token is required", by simp [gitTaskHandler, ht]⟩
    · by_cases htask : b.task = ""
      · exact ⟨400, "Task description is required", by simp [gitTaskHandler, ht, htask]⟩
      · rcases h with h | h
        · exact absurd h htask
        · exact ⟨400, "Git repository URL is required",
            by simp [gitTaskHandler, ht, htask, h]⟩
  · intro h1 h2 h3
    refine ⟨by simp [gitTaskHandler, h1, h2, h3], fun hfresh => ?_⟩
    simp [gitTaskHandler, h1, h2, h3, storeSet_length _ _ _ hfresh]

/-- Witness for C2 (amended): one rejected and one accepted concrete
submission. -/
theorem submit_validation_witness :
    (∃ code msg, gitTaskHandler [] { git_repo_url := "https://x/r.git" } "id-3" "ts" =
      ([], .err code msg)) ∧
    (gitTaskHandler [] { token := "tok", task := "do it",
                         git_repo_url := "https://x/r.git",
                         branch_name := "feature" } "id-3" "ts").2 =
      .ok ⟨"id-3", "running", "feature", "ts"⟩ ∧
    (gitTaskHandler [] { token := "tok", task := "do it",
                         git_repo_url := "https://x/r.git",
                         branch_name := "feature" } "id-3" "ts").1.length = 1 := by
  have h1 := (submit_validation [] { git_repo_url := "https://x/r.git" } "id-3" "ts").1
    (Or.inl rfl)
  have h2 := (submit_validation []
    { token := "tok", task := "do it", git_repo_url := "https://x/r.git",
      branch_name := "feature" } "id-3" "ts").2
    (by decide) (by decide) (by decide)
  refine ⟨h1, ?_, ?_⟩
  · have := h2.1
    simpa using this
  · simpa using h2.2 rfl

lemma applySession_nil (s : Session) : applySession s [] = s := rfl

lemma applySession_pushes (s : Session) (l : List String) :
    applySession s (l.map Mutation.pushProgress) =
      { s with progress := s.progress ++ l } := by
  induction l generalizing s with
  | nil => simp [applySession]
  | cons a t ih =>
    rw [List.map_cons, applySession_cons, ih]
    simp [applyMut]

/-- True exactly on clone commands. -/
def isCloneCmd : GitCmd → Bool
  | .clone _ => true
  | _ => false

/-- C3: a session whose pipeline fails at the clone step (the workspace was
created, the clone command reported failure) ends with `status = error`, a
non-empty `error` field carrying the failure message, `gitState.cloned`
still false, and exactly one clone command was issued (no retry). -/
theorem clone_failure_ends_error (env : RunnerEnv)
    (environment model task gitRepoUrl gitToken branchName now dir : String)
    (hmk : env.mkdtempResult = Except.ok dir)
    (hcl : env.cloneResult.success = false) :
    (let s := executeGitTask (initGitSession task model environment now branchName gitRepoUrl)
       env environment model task gitRepoUrl gitToken branchName
     s.status = "error" ∧
     s.error = some ("Failed to clone repository: " ++ env.cloneResult.output) ∧
     "Failed to clone repository: " ++ env.cloneResult.output ≠ "" ∧
     (gitFlags s).cloned = false) ∧
    (runnerCommands env environment model task gitRepoUrl gitToken branchName).countP
      isCloneCmd = 1 := by
  refine ⟨?_, ?_⟩
  · refine ⟨?_, ?_, ?_, ?_⟩
    · simp [executeGitTask, runnerMutations, runnerEvents, hmk, hcl, catchEvents, eventMut,
        applySession, applyMut, initGitSession]
    · simp [executeGitTask, runnerMutations, runnerEvents, hmk, hcl, catchEvents, eventMut,
        applySession, applyMut, initGitSession]
    · intro h
      have h2 := congrArg String.length h
      rw [String.length_append] at h2
      have h3 : "Failed to clone repository: ".length = 28 := rfl
      rw [h3] at h2
      simp at h2
    · simp [executeGitTask, runnerMutations, runnerEvents, hmk, hcl, catchEvents, eventMut,
        applySession, applyMut, initGitSession, gitFlags]
  · simp [runnerCommands, runnerEvents, hmk, hcl, catchEvents, eventCmd, isCloneCmd,
      List.countP_cons]

/-- Witness for C3 at a concrete failing environment. -/
theorem clone_failure_ends_error_witness :
    ({ mkdtempResult := Except.ok "/tmp/w",
       cloneResult := ⟨false, "fatal: repository not found"⟩ } : RunnerEnv).mkdtempResult =
      Except.ok "/tmp/w" ∧
    ({ mkdtempResult := Except.ok "/tmp/w",
       cloneResult := ⟨false, "fatal: repository not found"⟩ } : RunnerEnv).cloneResult.success
      = false ∧
    (executeGitTask (initGitSession "t" "m" "e" "now" "b" "https://bad/repo.git")
        { mkdtempResult := Except.ok "/tmp/w",
          cloneResult := ⟨false, "fatal: repository not found"⟩ }
        "e" "m" "t" "https://bad/repo.git" "" "b").status = "error" := by
  have h := clone_failure_ends_error
    { mkdtempResult := Except.ok "/tmp/w",
      cloneResult := ⟨false, "fatal: repository not found"⟩ }
    "e" "m" "t" "https://bad/repo.git" "" "b" "now" "/tmp/w" rfl rfl
  exact ⟨rfl, rfl, h.1.1⟩

/-- C5: a session whose working tree has no diff after the model step (the
`git status --porcelain` output is empty after trimming) ends with
`status = completed`, `files` still the empty list, and the
"No changes were made by the agent" progress line: producing no changes is
a success outcome. -/
theorem no_diff_still_completes (env : RunnerEnv)
    (environment model task gitRepoUrl gitToken branchName now dir : String)
    (hmk : env.mkdtempResult = Except.ok dir)
    (hcl : env.cloneResult.success = true)
    (hbr : env.branchResult.success = true)
    (hst : jsTrimStr env.statusResult.output = "") :
    (let s := executeGitTask (initGitSession task model environment now branchName gitRepoUrl)
       env environment model task gitRepoUrl gitToken branchName
     s.status = "completed" ∧ s.files = some [] ∧
     "No changes were made by the agent" ∈ s.progress) := by
  by_cases hapi : jsTruthy env.apiResponse <;>
    simp [executeGitTask, runnerMutations, runnerEvents, catchEvents, eventMut,
      List.filterMap_append, filterMap_eventMut_pushes,
              filterMap_comp_eventMut_pushes, applySession_cons,
      applySession_append, applySession_pushes, applySession_nil, applyMut, initGitSession,
      hmk, hcl, hbr, hst, hapi]

/-- Witness for C5: a concrete run with a failing model call and an empty
diff ends completed with no files. -/
theorem no_diff_still_completes_witness :
    (executeGitTask (initGitSession "t" "m" "e" "now" "b" "u")
        { mkdtempResult := Except.ok "/tmp/w", cloneResult := ⟨true, ""⟩ } "e" "m" "t" "u" "" "b").status =
      "completed" ∧
    (executeGitTask (initGitSession "t" "m" "e" "now" "b" "u")
        { mkdtempResult := Except.ok "/tmp/w", cloneResult := ⟨true, ""⟩ } "e" "m" "t" "u" "" "b").files = some [] := by
  have h := no_diff_still_completes { mkdtempResult := Except.ok "/tmp/w", cloneResult := ⟨true, ""⟩ }
    "e" "m" "t" "u" "" "b" "now" "/tmp/w" rfl rfl rfl (by decide)
  exact ⟨h.1, h.2.1⟩

/-- C4: once the pipeline has passed the clone and branch steps, a failed
model invocation (no usable API response) or a failed push is recorded
only as a progress-log line: the session still terminates with
`status = completed` and no `error` value, never `error`. -/
theorem soft_failures_still_complete (env : RunnerEnv)
    (environment model task gitRepoUrl gitToken branchName now dir : String)
    (hmk : env.mkdtempResult = Except.ok dir)
    (hcl : env.cloneResult.success = true)
    (hbr : env.branchResult.success = true) :
    (let s := executeGitTask (initGitSession task model environment now branchName gitRepoUrl)
       env environment model task gitRepoUrl gitToken branchName
     s.status = "completed" ∧ s.error = none ∧
     (jsTruthy env.apiResponse = false →
       "Warning: Could not get response from API" ∈ s.progress) ∧
     (jsTrimStr env.statusResult.output ≠ "" → env.commitResult.success = true →
       env.pushResult.success = false →
       "Warning: Push failed - " ++ env.pushResult.output ∈ s.progress)) := by
  refine ⟨?_, ?_, ?_, ?_⟩
  · by_cases hapi : jsTruthy env.apiResponse <;>
      by_cases hst : jsTrimStr env.statusResult.output = "" <;>
        by_cases hcm : env.commitResult.success <;>
          by_cases hps : env.pushResult.success <;>
            simp [executeGitTask, runnerMutations, runnerEvents, catchEvents, eventMut,
              List.filterMap_append, filterMap_eventMut_pushes,
              filterMap_comp_eventMut_pushes, applySession_cons,
              applySession_append, applySession_pushes, applySession_nil, applyMut,
              initGitSession, hmk, hcl, hbr, hapi, hst, hcm, hps]
  · by_cases hapi : jsTruthy env.apiResponse <;>
      by_cases hst : jsTrimStr env.statusResult.output = "" <;>
        by_cases hcm : env.commitResult.success <;>
          by_cases hps : env.pushResult.success <;>
            simp [executeGitTask, runnerMutations, runnerEvents, catchEvents, eventMut,
              List.filterMap_append, filterMap_eventMut_pushes,
              filterMap_comp_eventMut_pushes, applySession_cons,
              applySession_append, applySession_pushes, applySession_nil, applyMut,
              initGitSession, hmk, hcl, hbr, hapi, hst, hcm, hps]
  · intro hapi
    by_cases hst : jsTrimStr env.statusResult.output = "" <;>
      by_cases hcm : env.commitResult.success <;>
        by_cases hps : env.pushResult.success <;>
          simp [executeGitTask, runnerMutations, runnerEvents, catchEvents, eventMut,
            List.filterMap_append, filterMap_eventMut_pushes,
              filterMap_comp_eventMut_pushes, applySession_cons,
            applySession_append, applySession_pushes, applySession_nil, applyMut,
            initGitSession, hmk, hcl, hbr, hapi, hst, hcm, hps]
  · intro hst hcm hps
    by_cases hapi : jsTruthy env.apiResponse <;>
      simp [executeGitTask, runnerMutations, runnerEvents, catchEvents, eventMut,
        List.filterMap_append, filterMap_eventMut_pushes,
              filterMap_comp_eventMut_pushes, applySession_cons,
        applySession_append, applySession_pushes, applySession_nil, applyMut,
        initGitSession, hmk, hcl, hbr, hapi, hst, hcm, hps]

/-- Witness for C4: a concrete run in which the model call returned nothing
and the push failed still completes, with both warnings logged. -/
theorem soft_failures_still_complete_witness :
    (let env : RunnerEnv := { mkdtempResult := Except.ok "/tmp/w", cloneResult := ⟨true, ""⟩,
                              apiResponse := none,
                              statusResult := ⟨true, " M a.txt\n"⟩,
                              pushResult := ⟨false, "remote rejected"⟩ }
     let s := executeGitTask (initGitSession "t" "m" "e" "now" "b" "u")
       env "e" "m" "t" "u" "" "b"
     s.status = "completed" ∧ s.error = none ∧
     "Warning: Could not get response from API" ∈ s.progress ∧
     "Warning: Push failed - remote rejected" ∈ s.progress) := by
  have h := soft_failures_still_complete
    { mkdtempResult := Except.ok "/tmp/w", cloneResult := ⟨true, ""⟩, apiResponse := none,
      statusResult := ⟨true, " M a.txt\n"⟩, pushResult := ⟨false, "remote rejected"⟩ }
    "e" "m" "t" "u" "" "b" "now" "/tmp/w" rfl rfl rfl
  exact ⟨h.1, h.2.1, h.2.2.1 (by decide), h.2.2.2 (by decide) rfl rfl⟩

lemma writeAll_lookup (fs : Fs) (ws : List (String × String)) (p : String) :
    writeAll fs ws p =
      ((ws.filter fun w => w.1 = p).getLast?).elim (fs p) (fun w => some w.2) := by
  induction ws using List.reverseRecOn with
  | nil => rfl
  | append_singleton l w ih =>
    have hw : writeAll fs (l ++ [w]) = fsWrite (writeAll fs l) w.1 w.2 := by
      simp [writeAll, List.foldl_append]
    rw [hw]
    by_cases hp : w.1 = p
    · simp [fsWrite, hp, List.filter_append, List.getLast?_concat]
    · have hp2 : ¬(p = w.1) := fun h => hp h.symm
      simp [fsWrite, hp, hp2, List.filter_append, ih]

/-- C8: on a normal run the patch applier writes to disk exactly the
matches of the `FILE:` fenced-block pattern, in match order (one
`Modified:` progress line per match, in order), with a later match to the
same trimmed path silently overwriting an earlier one — the resulting
content at any path is that of the last match targeting it, or the
original content if no match targets it (writes are total over arbitrary
paths: no validation is performed); if the text contains no match, only
the "No file changes detected in response" progress line is produced and
the tree is untouched. -/
theorem apply_suggestions_last_write_wins (fs : Fs) (text : String) :
    (fileBlockMatches text = [] →
      applyClaudeSuggestions fs text none = (fs, ["No file changes detected in response"])) ∧
    (fileBlockMatches text ≠ [] →
      (applyClaudeSuggestions fs text none).2 =
        (fileWrites text).map (fun w => "Modified: " ++ w.1)) ∧
    (∀ p, (applyClaudeSuggestions fs text none).1 p =
      (((fileWrites text).filter fun w => w.1 = p).getLast?).elim (fs p)
        (fun w => some w.2)) := by
  refine ⟨?_, ?_, ?_⟩
  · intro h
    simp [applyClaudeSuggestions, applyFs, applyMessages, fileWrites, h, writeAll]
  · intro h
    simp [applyClaudeSuggestions, applyMessages, List.isEmpty_iff, h]
  · intro p
    exact writeAll_lookup fs (fileWrites text) p

/-- Witness for C8: two blocks targeting the same path — the later content
wins, both progress lines appear in order; and a no-match text yields only
the no-changes line. -/
theorem apply_suggestions_last_write_wins_witness :
    (applyClaudeSuggestions (fun _ => none)
        "FILE: a\n```\none\n```\nFILE: a\n```\ntwo\n```" none).1 "a" = some "two" ∧
    (applyClaudeSuggestions (fun _ => none)
        "FILE: a\n```\none\n```\nFILE: a\n```\ntwo\n```" none).2 =
      ["Modified: a", "Modified: a"] ∧
    applyClaudeSuggestions (fun _ => none) "no blocks" none =
      ((fun _ => none), ["No file changes detected in response"]) := by
  have h := apply_suggestions_last_write_wins (fun _ => none)
    "FILE: a\n```\none\n```\nFILE: a\n```\ntwo\n```"
  have h0 := apply_suggestions_last_write_wins (fun _ => none) "no blocks"
  refine ⟨?_, ?_, h0.1 (by decide)⟩
  · rw [h.2.2 "a"]
    decide
  · rw [h.2.1 (by decide)]
    decide

end Orca
